import Mathlib

/-!
Verification of the webhook dispatcher and API-key credential gateway of the
IP-Paralegal platform (src/lib/webhooks.ts and src/lib/audit.ts), shallowly
embedded in Lean.  Strings that only ever flow into Node's `crypto` functions
(API keys, HMAC secrets, signatures) are modelled as their byte sequences
(`List Nat`, each entry < 256); all other strings stay `String`.  Database
tables are lists of records and every `db.*` call becomes an explicit state
transformation; timestamps are integers (milliseconds since the epoch, as in
JavaScript `Date.getTime()`).
-/

namespace IPPlatform

/-! ## Model of Node `crypto`: SHA-256, HMAC-SHA256, hex digests

`crypto.createHash('sha256')`, `crypto.createHmac('sha256', secret)` and
`.digest('hex')` are external library calls; they are modelled here by a
complete executable SHA-256 over byte lists (FIPS 180-4). -/

/-- The word modulus of SHA-256, 2^32. -/
def M32 : Nat := 4294967296

/-- Right rotation of a 32-bit word. -/
def rotr (n x : Nat) : Nat := (x >>> n) ||| ((x <<< (32 - n)) % M32)

/-- SHA-256 small sigma 0. -/
def sSig0 (x : Nat) : Nat := (rotr 7 x) ^^^ (rotr 18 x) ^^^ (x >>> 3)

/-- SHA-256 small sigma 1. -/
def sSig1 (x : Nat) : Nat := (rotr 17 x) ^^^ (rotr 19 x) ^^^ (x >>> 10)

/-- SHA-256 big sigma 0. -/
def bSig0 (x : Nat) : Nat := (rotr 2 x) ^^^ (rotr 13 x) ^^^ (rotr 22 x)

/-- SHA-256 big sigma 1. -/
def bSig1 (x : Nat) : Nat := (rotr 6 x) ^^^ (rotr 11 x) ^^^ (rotr 25 x)

/-- SHA-256 choice function. -/
def chF (x y z : Nat) : Nat := (x &&& y) ^^^ ((x ^^^ 4294967295) &&& z)

/-- SHA-256 majority function. -/
def majF (x y z : Nat) : Nat := (x &&& y) ^^^ (x &&& z) ^^^ (y &&& z)

/-- The 64 SHA-256 round constants (FIPS 180-4 §4.2.2), in decimal. -/
def sha256K : List Nat :=
  [1116352408, 1899447441, 3049323471, 3921009573,
   961987163, 1508970993, 2453635748, 2870763221,
   3624381080, 310598401, 607225278, 1426881987,
   1925078388, 2162078206, 2614888103, 3248222580,
   3835390401, 4022224774, 264347078, 604807628,
   770255983, 1249150122, 1555081692, 1996064986,
   2554220882, 2821834349, 2952996808, 3210313671,
   3336571891, 3584528711, 113926993, 338241895,
   666307205, 773529912, 1294757372, 1396182291,
   1695183700, 1986661051, 2177026350, 2456956037,
   2730485921, 2820302411, 3259730800, 3345764771,
   3516065817, 3600352804, 4094571909, 275423344,
   430227734, 506948616, 659060556, 883997877,
   958139571, 1322822218, 1537002063, 1747873779,
   1955562222, 2024104815, 2227730452, 2361852424,
   2428436474, 2756734187, 3204031479, 3329325298]

/-- Working state of the SHA-256 compression function (registers a–h). -/
structure Hash8 where
  a : Nat
  b : Nat
  c : Nat
  d : Nat
  e : Nat
  f : Nat
  g : Nat
  h : Nat
deriving DecidableEq

/-- SHA-256 initial hash value (FIPS 180-4 §5.3.3), in decimal. -/
def sha256H0 : Hash8 :=
  { a := 1779033703, b := 3144134277, c := 1013904242, d := 2773480762,
    e := 1359893119, f := 2600822924, g := 528734635, h := 1541459225 }

/-- One round of the SHA-256 compression function, consuming one
(round constant, schedule word) pair. -/
def sha256Round (s : Hash8) (kw : Nat × Nat) : Hash8 :=
  let t1 := (s.h + bSig1 s.e + chF s.e s.f s.g + kw.1 + kw.2) % M32
  let t2 := (bSig0 s.a + majF s.a s.b s.c) % M32
  { a := (t1 + t2) % M32, b := s.a, c := s.b, d := s.c,
    e := (s.d + t1) % M32, f := s.e, g := s.f, h := s.g }

/-- Extend a 16-word message block by `n` further schedule words. -/
def extendSchedule : Nat → List Nat → List Nat
  | 0, w => w
  | n + 1, w =>
      let k := w.length
      let next := (sSig1 (w.getD (k - 2) 0) + w.getD (k - 7) 0 +
                   sSig0 (w.getD (k - 15) 0) + w.getD (k - 16) 0) % M32
      extendSchedule n (w ++ [next])

/-- Big-endian packing of bytes into 32-bit words (complete 4-byte groups). -/
def bytesToWords : List Nat → List Nat
  | b0 :: b1 :: b2 :: b3 :: rest =>
      (b0 * 16777216 + b1 * 65536 + b2 * 256 + b3) :: bytesToWords rest
  | _ => []

/-- Compress one 16-word block into the running hash state. -/
def sha256Compress (s : Hash8) (block : List Nat) : Hash8 :=
  let w := extendSchedule 48 block
  let t := (sha256K.zip w).foldl sha256Round s
  { a := (s.a + t.a) % M32, b := (s.b + t.b) % M32, c := (s.c + t.c) % M32,
    d := (s.d + t.d) % M32, e := (s.e + t.e) % M32, f := (s.f + t.f) % M32,
    g := (s.g + t.g) % M32, h := (s.h + t.h) % M32 }

/-- Split a padded byte string into 16-word blocks of 64 bytes each. -/
def toBlocks (bs : List Nat) : List (List Nat) :=
  if h : bs = [] then []
  else bytesToWords (bs.take 64) :: toBlocks (bs.drop 64)
termination_by bs.length
decreasing_by
  have : bs.length ≠ 0 := fun hlen => h (List.eq_nil_of_length_eq_zero hlen)
  simp only [List.length_drop]
  omega

/-- Big-endian 8-byte encoding of a 64-bit length field. -/
def word64ToBytes (n : Nat) : List Nat :=
  [n / 72057594037927936 % 256, n / 281474976710656 % 256,
   n / 1099511627776 % 256, n / 4294967296 % 256,
   n / 16777216 % 256, n / 65536 % 256, n / 256 % 256, n % 256]

/-- Big-endian 4-byte encoding of a 32-bit word. -/
def word32ToBytes (w : Nat) : List Nat :=
  [w / 16777216 % 256, w / 65536 % 256, w / 256 % 256, w % 256]

/-- SHA-256 message padding: a 0x80 byte, zeros to 56 mod 64, then the
bit length as a big-endian 64-bit integer. -/
def sha256Pad (msg : List Nat) : List Nat :=
  let padLen := (119 - msg.length % 64) % 64
  msg ++ [128] ++ List.replicate padLen 0 ++ word64ToBytes (8 * msg.length)

/-- SHA-256 of a byte string, as its 32 digest bytes. -/
def sha256 (msg : List Nat) : List Nat :=
  let final := (toBlocks (sha256Pad msg)).foldl sha256Compress sha256H0
  word32ToBytes final.a ++ word32ToBytes final.b ++ word32ToBytes final.c ++
  word32ToBytes final.d ++ word32ToBytes final.e ++ word32ToBytes final.f ++
  word32ToBytes final.g ++ word32ToBytes final.h

/-- HMAC-SHA256 with a 64-byte block size (RFC 2104). -/
def hmacSha256 (key msg : List Nat) : List Nat :=
  let k1 := if key.length > 64 then sha256 key else key
  let k0 := k1 ++ List.replicate (64 - k1.length) 0
  sha256 ((k0.map (fun b => b ^^^ 0x5c)) ++ sha256 ((k0.map (fun b => b ^^^ 0x36)) ++ msg))

/-- ASCII code of the lowercase hex digit for `n < 16`, as produced by
Node's `.digest('hex')`. -/
def hexDigitAscii (n : Nat) : Nat := if n < 10 then 48 + n else 87 + n

/-- The two ASCII hex digits of one byte. -/
def byteToHexAscii (b : Nat) : List Nat := [hexDigitAscii (b / 16), hexDigitAscii (b % 16)]

/-- Lowercase hex encoding of a byte string, as the byte sequence of the
resulting ASCII string (the result of `.digest('hex')`). -/
def hexAscii (bs : List Nat) : List Nat := (bs.map byteToHexAscii).flatten

/-! ## Webhook signatures (webhooks.ts lines 41–61) -/

/-- Embedding of `generateSignature`: the lowercase hex HMAC-SHA256 of the
serialized payload under the subscription secret (as the bytes of the hex
string). -/
def generateSignature (payload secret : List Nat) : List Nat :=
  hexAscii (hmacSha256 secret payload)

/-- Embedding of `verifyWebhookSignature`: recompute the signature and
compare with `crypto.timingSafeEqual`.  `timingSafeEqual` raises a
`RangeError` when the two buffers differ in byte length — modelled by the
`Except.error` branch — and otherwise reports constant-time content
equality. -/
def verifyWebhookSignature (payload signature secret : List Nat) :
    Except String Bool :=
  let expectedSignature := generateSignature payload secret
  if signature.length = expectedSignature.length then
    .ok (signature == expectedSignature)
  else .error "Input buffers must have the same byte length"

/-! ## Scope authorization (`hasScope`, webhooks.ts lines 702–716)

The source takes `apiKey: { scopes: string[] }`; the embedding takes the
scope list directly.  `scope.slice(0, -2)` is `String.dropRight 2`. -/

/-- JS `s.endsWith(t)` on the character sequence of the string. -/
def strEndsWith (s t : String) : Bool := t.data.isSuffixOf s.data

/-- JS `s.startsWith(t)` on the character sequence of the string. -/
def strStartsWith (s t : String) : Bool := t.data.isPrefixOf s.data

/-- JS `s.slice(0, -2)`: the string without its final two characters. -/
def strDropLast2 (s : String) : String := ⟨s.data.take (s.data.length - 2)⟩

/-- Embedding of `hasScope`: exact match, universal wildcard `*`, or a
`X.*` entry whose stem (`scope.slice(0, -2)`) is a prefix of the required
scope. -/
def hasScope (scopes : List String) (requiredScope : String) : Bool :=
  scopes.contains "*" ||
  scopes.contains requiredScope ||
  scopes.any (fun scope =>
    if strEndsWith scope ".*" then strStartsWith requiredScope (strDropLast2 scope)
    else false)

/-! ## Credential gateway data model

`db.apiKey` rows and `db.auditLog` rows (the only tables the gateway
touches).  The `key` column stores the lowercase hex SHA-256 of the raw
key, never the raw key itself. -/

/-- One `ApiKey` row. -/
structure ApiKeyRec where
  id : String
  organizationId : String
  name : String
  key : List Nat
  keyPrefix : List Nat
  scopes : List String
  isActive : Bool
  expiresAt : Option Int
  lastUsedAt : Option Int
  usageCount : Nat
  rateLimit : Int
  createdBy : String
deriving DecidableEq

/-- One `AuditLog` row (the fields the gateway reads or writes). -/
structure AuditRec where
  organizationId : String
  userId : String
  action : String
  entityType : String
  entityId : Option String
  description : String
  createdAt : Int
deriving DecidableEq

/-- The persistent state the credential gateway operates on. -/
structure GatewayState where
  apiKeys : List ApiKeyRec
  auditLogs : List AuditRec
deriving DecidableEq

/-- Embedding of `createAuditLog` (audit.ts): `db.auditLog.create` appends
one row (ip address / user agent metadata omitted — never read back). -/
def createAuditLog (s : GatewayState) (entry : AuditRec) : GatewayState :=
  { s with auditLogs := entry :: s.auditLogs }

/-- Embedding of `db.apiKey.update({where: {id}, data})`: rewrite the rows
whose id matches. -/
def updateApiKeyRows (s : GatewayState) (id : String) (f : ApiKeyRec → ApiKeyRec) :
    GatewayState :=
  { s with apiKeys := s.apiKeys.map (fun k => if k.id = id then f k else k) }

/-- The bytes of the constant `API_KEY_PREFIX = 'ip_'`. -/
def apiKeyStartBytes : List Nat := [105, 112, 95]

/-- ASCII code of character `n` of the base64url alphabet. -/
def base64UrlChar (n : Nat) : Nat :=
  if n < 26 then 65 + n
  else if n < 52 then 97 + (n - 26)
  else if n < 62 then 48 + (n - 52)
  else if n = 62 then 45
  else 95

/-- Node `Buffer.toString('base64url')`: unpadded base64url of a byte
string, as the bytes of the resulting ASCII text. -/
def base64UrlEncode : List Nat → List Nat
  | [] => []
  | [b0] => [base64UrlChar (b0 / 4), base64UrlChar (b0 % 4 * 16)]
  | [b0, b1] => [base64UrlChar (b0 / 4), base64UrlChar (b0 % 4 * 16 + b1 / 16),
                 base64UrlChar (b1 % 16 * 4)]
  | b0 :: b1 :: b2 :: rest =>
      base64UrlChar (b0 / 4) :: base64UrlChar (b0 % 4 * 16 + b1 / 16) ::
      base64UrlChar (b1 % 16 * 4 + b2 / 64) :: base64UrlChar (b2 % 64) ::
      base64UrlEncode rest

/-- Result record of `generateApiKey`. -/
structure GeneratedKey where
  key : List Nat
  hash : List Nat
  keyPrefix : List Nat
deriving DecidableEq

/-- The hex SHA-256 a raw key is stored and looked up under. -/
def keyHash (key : List Nat) : List Nat := hexAscii (sha256 key)

/-- Embedding of `generateApiKey`: the secure random bytes are the explicit
`rnd` input; the key is `'ip_' + base64url(rnd)`, the hash its hex SHA-256,
the display prefix the first 12 characters. -/
def generateApiKey (rnd : List Nat) : GeneratedKey :=
  let key := apiKeyStartBytes ++ base64UrlEncode rnd
  { key := key, hash := keyHash key, keyPrefix := key.take 12 }

/-- Embedding of `createApiKey`: persist a new ApiKey row carrying the hash
(`isActive` defaults to true, `usageCount` to 0 per the schema defaults),
write an `api_key.created` audit entry, and return the stored row together
with the raw key.  `newId` stands for the database-generated row id and
`defaultRateLimit` for the schema default of the `rateLimit` column. -/
def createApiKey (s : GatewayState) (rnd : List Nat) (newId : String)
    (organizationId name : String) (scopes : List String) (createdBy : String)
    (expiresAt : Option Int) (defaultRateLimit : Int) (now : Int) :
    (ApiKeyRec × List Nat) × GatewayState :=
  let g := generateApiKey rnd
  let row : ApiKeyRec :=
    { id := newId, organizationId := organizationId, name := name,
      key := g.hash, keyPrefix := g.keyPrefix, scopes := scopes,
      isActive := true, expiresAt := expiresAt, lastUsedAt := none,
      usageCount := 0, rateLimit := defaultRateLimit, createdBy := createdBy }
  let s1 : GatewayState := { s with apiKeys := s.apiKeys ++ [row] }
  let s2 := createAuditLog s1
    { organizationId := organizationId, userId := createdBy,
      action := "api_key.created", entityType := "api_key",
      entityId := some newId,
      description := "API key \"" ++ name ++ "\" created", createdAt := now }
  ((row, g.key), s2)

/-- Embedding of `validateApiKey`: reject keys without the `ip_` marker,
look the row up by the hex SHA-256 of the key, reject inactive or expired
rows, and on success bump `usageCount` and `lastUsedAt` before returning
the row (whose `organizationId` is the resolved tenant).  `now` is the
value of `new Date()`. -/
def validateApiKey (s : GatewayState) (key : List Nat) (now : Int) :
    Option ApiKeyRec × GatewayState :=
  if ¬ apiKeyStartBytes.isPrefixOf key then (none, s)
  else
    match s.apiKeys.find? (fun k => k.key == keyHash key) with
    | none => (none, s)
    | some apiKey =>
        if ¬ apiKey.isActive then (none, s)
        else if (match apiKey.expiresAt with
                 | some t => decide (t < now)
                 | none => false) then (none, s)
        else
          (some apiKey,
           updateApiKeyRows s apiKey.id
             (fun k => { k with lastUsedAt := some now, usageCount := k.usageCount + 1 }))

/-- Embedding of `revokeApiKey`: `db.apiKey.update({where: {id, organizationId}})`
flips `isActive` off (when a matching row exists; Prisma raises otherwise,
modelled as the `none` branch with no writes), then writes an
`api_key.deleted` audit entry. -/
def revokeApiKey (s : GatewayState) (apiKeyId organizationId revokedBy : String)
    (now : Int) : Option ApiKeyRec × GatewayState :=
  match s.apiKeys.find? (fun k => k.id == apiKeyId && k.organizationId == organizationId) with
  | none => (none, s)
  | some row =>
      let s1 := updateApiKeyRows s row.id (fun k => { k with isActive := false })
      let s2 := createAuditLog s1
        { organizationId := organizationId, userId := revokedBy,
          action := "api_key.deleted", entityType := "api_key",
          entityId := some apiKeyId,
          description := "API key \"" ++ row.name ++ "\" revoked", createdAt := now }
      (some { row with isActive := false }, s2)

/-- Result record of `checkRateLimit`. -/
structure RateLimitResult where
  allowed : Bool
  remaining : Int
  resetAt : Int
deriving DecidableEq

/-- The `db.auditLog.count` query of `checkRateLimit`: rows with action
`api_key.used`, entityId the given key, created at or after the window
start. -/
def recentUsage (s : GatewayState) (apiKeyId : String) (now : Int) : Nat :=
  (s.auditLogs.filter (fun e =>
    e.action == "api_key.used" && e.entityId == some apiKeyId &&
    decide (now - 3600000 ≤ e.createdAt))).length

/-- Embedding of `checkRateLimit`: count attributable `api_key.used` audit
rows in the trailing hour, floor the remaining allowance at 0, and report
the reset instant as window start plus one hour. -/
def checkRateLimit (s : GatewayState) (apiKeyId : String) (rateLimit : Int)
    (now : Int) : RateLimitResult :=
  let windowStart := now - 3600000
  let used : Int := (recentUsage s apiKeyId now : Int)
  let remaining := max 0 (rateLimit - used)
  { allowed := remaining > 0, remaining := remaining, resetAt := windowStart + 3600000 }

/-- Outcome of `authenticateApiRequest` as seen by its caller. -/
inductive AuthOutcome where
  | failed (error : String) (status : Nat)
  | rateLimited (error : String) (status : Nat) (remaining : Int) (resetAt : Int)
  | ok (apiKey : ApiKeyRec) (remaining : Int)
deriving DecidableEq

/-- The bytes of the string `'Bearer '`. -/
def bearerBytes : List Nat := [66, 101, 97, 114, 101, 114, 32]

/-- Embedding of `authenticateApiRequest`: read the authorization header
(`none` when absent), require the `Bearer ` marker, validate the key, then
check the rate limit against the key's stored ceiling. -/
def authenticateApiRequest (s : GatewayState) (authHeader : Option (List Nat))
    (now : Int) : AuthOutcome × GatewayState :=
  match authHeader with
  | none => (.failed "Missing or invalid authorization header" 401, s)
  | some h =>
      if ¬ bearerBytes.isPrefixOf h then
        (.failed "Missing or invalid authorization header" 401, s)
      else
        match validateApiKey s (h.drop 7) now with
        | (none, s1) => (.failed "Invalid API key" 401, s1)
        | (some apiKey, s1) =>
            let rl := checkRateLimit s1 apiKey.id apiKey.rateLimit now
            if ¬ rl.allowed then
              (.rateLimited "Rate limit exceeded" 429 rl.remaining rl.resetAt, s1)
            else (.ok apiKey rl.remaining, s1)

/-! ## Event dispatcher data model (`triggerWebhooks`, webhooks.ts 66–169)

`db.webhook` and `db.webhookDelivery` rows.  The HTTP POST to each
subscriber (with its signature, event and timestamp headers) is external
I/O; its result enters the model as a `FetchOutcome` oracle, one per
webhook id.  The source issues the per-subscriber deliveries concurrently,
but each of them touches only its own webhook row and appends its own
delivery row, so the end state of any interleaving equals the sequential
fold modelled here. -/

/-- One `Webhook` row (a subscription). -/
structure Webhook where
  id : String
  organizationId : String
  url : String
  events : List String
  secret : List Nat
  isActive : Bool
  failureCount : Nat
  lastDeliveryAt : Option Int
deriving DecidableEq

/-- The payload envelope `{event, timestamp, data, organizationId}`; the
serialized `data` record is kept as an opaque string. -/
structure WebhookPayload where
  event : String
  timestamp : Int
  data : String
  organizationId : String
deriving DecidableEq

/-- One `WebhookDelivery` row. -/
structure WebhookDelivery where
  webhookId : String
  event : String
  payload : WebhookPayload
  statusCode : Option Int
  response : Option String
  duration : Int
  success : Bool
  error : Option String
deriving DecidableEq

/-- The persistent state the dispatcher operates on. -/
structure DispatcherState where
  webhooks : List Webhook
  deliveries : List WebhookDelivery
deriving DecidableEq

/-- What `fetch` produced for one subscriber: an HTTP response, or a raised
error (transport failure, or the 30-second `AbortSignal` timeout). -/
inductive FetchOutcome where
  | response (status : Int) (body : Option String)
  | failure (message : String)
deriving DecidableEq

/-- Embedding of `Response.ok`: the status is in the 2xx range. -/
def statusOk (status : Int) : Bool := 200 ≤ status && status < 300

/-- The `success` flag the dispatcher computes for one fetch outcome. -/
def fetchSuccess : FetchOutcome → Bool
  | .response status _ => statusOk status
  | .failure _ => false

/-- The `statusCode` recorded for one fetch outcome (null without a response). -/
def fetchStatusCode : FetchOutcome → Option Int
  | .response status _ => some status
  | .failure _ => none

/-- The `responseBody` captured from one fetch outcome. -/
def fetchBody : FetchOutcome → Option String
  | .response _ body => body
  | .failure _ => none

/-- The template interpolation `${responseBody?.substring(0, 500)}` (an
absent body prints as `undefined`). -/
def bodySnippet : Option String → String
  | some body => body.take 500
  | none => "undefined"

/-- The `error` string recorded for one fetch outcome. -/
def fetchError : FetchOutcome → Option String
  | .response status body =>
      if statusOk status then none
      else some ("HTTP " ++ toString status ++ ": " ++ bodySnippet body)
  | .failure message => some message

/-- One element of the list `dispatch` resolves: per-subscription id,
success flag, and error if any. -/
structure DispatchOutcome where
  webhookId : String
  success : Bool
  error : Option String
deriving DecidableEq

/-- Embedding of `db.webhook.update({where: {id}, data})`. -/
def updateWebhookRows (s : DispatcherState) (id : String) (f : Webhook → Webhook) :
    DispatcherState :=
  { s with webhooks := s.webhooks.map (fun w => if w.id = id then f w else w) }

/-- The outcome the per-subscriber closure returns, as a function of the
webhook and its fetch outcome alone. -/
def deliveryOutcome (w : Webhook) (o : FetchOutcome) : DispatchOutcome :=
  { webhookId := w.id, success := fetchSuccess o, error := fetchError o }

/-- Embedding of one iteration of the `webhooks.map` delivery closure
(webhooks.ts 94–166): record the delivery, update the webhook's stats
(`failureCount` reset on success, atomically incremented on failure,
`lastDeliveryAt` stamped either way), and on failure re-read the row and
deactivate it once the counter has reached 10. -/
def deliverOne (s : DispatcherState) (payload : WebhookPayload) (event : String)
    (w : Webhook) (o : FetchOutcome) (duration : Int) (now : Int) :
    DispatchOutcome × DispatcherState :=
  let success := fetchSuccess o
  let s1 : DispatcherState :=
    { s with deliveries := s.deliveries ++
        [{ webhookId := w.id, event := event, payload := payload,
           statusCode := fetchStatusCode o,
           response := (fetchBody o).map (fun b => b.take 10000),
           duration := duration, success := success, error := fetchError o }] }
  let s2 := updateWebhookRows s1 w.id
    (fun wh => { wh with lastDeliveryAt := some now,
                         failureCount := if success then 0 else wh.failureCount + 1 })
  let s3 :=
    if success then s2
    else
      match s2.webhooks.find? (fun wh => wh.id == w.id) with
      | some whUpdated =>
          if whUpdated.failureCount ≥ 10 then
            updateWebhookRows s2 w.id (fun wh => { wh with isActive := false })
          else s2
      | none => s2
  (deliveryOutcome w o, s3)

/-- The `db.webhook.findMany` query of `triggerWebhooks`: active webhooks
of the organization whose event list has the event. -/
def matchingWebhooks (s : DispatcherState) (organizationId : String)
    (event : String) : List Webhook :=
  s.webhooks.filter (fun w =>
    w.organizationId == organizationId && w.isActive && w.events.contains event)

/-- One iteration of the delivery fold: run `deliverOne` for the next
matching webhook against the accumulated state and append its outcome. -/
def dispatchStep (payload : WebhookPayload) (event : String)
    (outcomes : String → FetchOutcome) (durations : String → Int) (now : Int)
    (acc : List DispatchOutcome × DispatcherState) (w : Webhook) :
    List DispatchOutcome × DispatcherState :=
  let r := deliverOne acc.2 payload event w (outcomes w.id) (durations w.id) now
  (acc.1 ++ [r.1], r.2)

/-- Embedding of `triggerWebhooks`: when no active subscription matches,
return with no value (`return;` — modelled as `none`); otherwise build the
envelope once and deliver to every matching subscription, threading the
state through the (order-independent) per-subscriber steps and collecting
the per-subscription outcomes.  `outcomes` and `durations` give each
webhook id its fetch result and elapsed milliseconds. -/
def triggerWebhooks (s : DispatcherState) (organizationId : String)
    (event : String) (data : String) (outcomes : String → FetchOutcome)
    (durations : String → Int) (now : Int) :
    Option (List DispatchOutcome) × DispatcherState :=
  let webhooks := matchingWebhooks s organizationId event
  if webhooks.isEmpty then (none, s)
  else
    let payload : WebhookPayload :=
      { event := event, timestamp := now, data := data,
        organizationId := organizationId }
    let final := webhooks.foldl (dispatchStep payload event outcomes durations now) ([], s)
    (some final.1, final.2)

/-- Look a webhook row up by id (`db.webhook.findUnique`). -/
def findWebhook (s : DispatcherState) (id : String) : Option Webhook :=
  s.webhooks.find? (fun w => w.id == id)

/-- The net effect of one delivery attempt on the attempted subscription
row: stamp `lastDeliveryAt`, reset the counter on success and increment it
on failure, and — when the attempt failed and the post-increment counter
has reached 10 — turn the subscription off. -/
def postAttempt (w : Webhook) (success : Bool) (now : Int) : Webhook :=
  if success then
    { w with lastDeliveryAt := some now, failureCount := 0 }
  else if 10 ≤ w.failureCount + 1 then
    { w with lastDeliveryAt := some now, failureCount := w.failureCount + 1,
             isActive := false }
  else
    { w with lastDeliveryAt := some now, failureCount := w.failureCount + 1 }

/-! ## Reachability through the credential-gateway operations (for the
rate-limiter invariant): every state obtained from an empty store by any
sequence of `createApiKey`, `validateApiKey`, `revokeApiKey` and
`authenticateApiRequest` calls. -/

/-- One credential-gateway operation, as a relation between the state
before and after the call. -/
inductive GatewayStep : GatewayState → GatewayState → Prop where
  | create (s : GatewayState) (rnd : List Nat) (newId organizationId name : String)
      (scopes : List String) (createdBy : String) (expiresAt : Option Int)
      (defaultRateLimit : Int) (now : Int) :
      GatewayStep s (createApiKey s rnd newId organizationId name scopes createdBy
        expiresAt defaultRateLimit now).2
  | validate (s : GatewayState) (key : List Nat) (now : Int) :
      GatewayStep s (validateApiKey s key now).2
  | revoke (s : GatewayState) (apiKeyId organizationId revokedBy : String) (now : Int) :
      GatewayStep s (revokeApiKey s apiKeyId organizationId revokedBy now).2
  | authRequest (s : GatewayState) (authHeader : Option (List Nat)) (now : Int) :
      GatewayStep s (authenticateApiRequest s authHeader now).2

/-- States reachable from the empty store through gateway operations. -/
inductive GatewayReachable : GatewayState → Prop where
  | init : GatewayReachable { apiKeys := [], auditLogs := [] }
  | step {s s' : GatewayState} : GatewayReachable s → GatewayStep s s' →
      GatewayReachable s'

/-- A two-operation reachable sample state (a key is issued, then revoked)
used to instantiate the rate-limiter invariant. -/
def sampleGatewayState : GatewayState :=
  (revokeApiKey
    (createApiKey { apiKeys := [], auditLogs := [] } [] "k1" "org1" "Main key"
      ["cases.read"] "user1" none 1000 0).2
    "k1" "org1" "user1" 5).2

/-- A store holding five `api_key.used` audit rows for credential `k1`, at
100-millisecond intervals from time 0 (the rate-limit scenario of the
spec). -/
def fiveUsesState : GatewayState :=
  { apiKeys := [],
    auditLogs :=
      [0, 100, 200, 300, 400].map (fun t =>
        { organizationId := "org1", userId := "user1", action := "api_key.used",
          entityType := "api_key", entityId := some "k1", description := "",
          createdAt := t }) }

/-- The three-subscriber partial-failure scenario of the spec: subscriber A
answers 200, B answers 500, C times out. -/
def threeSubscriberState : DispatcherState :=
  { webhooks :=
      [{ id := "whA", organizationId := "org1", url := "https://a.example/hook",
         events := ["case.created"], secret := [1], isActive := true,
         failureCount := 0, lastDeliveryAt := none },
       { id := "whB", organizationId := "org1", url := "https://b.example/hook",
         events := ["case.created"], secret := [2], isActive := true,
         failureCount := 0, lastDeliveryAt := none },
       { id := "whC", organizationId := "org1", url := "https://c.example/hook",
         events := ["case.created"], secret := [3], isActive := true,
         failureCount := 0, lastDeliveryAt := none }] ,
    deliveries := [] }

/-- The fetch results of the three-subscriber scenario. -/
def threeSubscriberFetch : String → FetchOutcome := fun id =>
  if id = "whA" then .response 200 (some "ok")
  else if id = "whB" then .response 500 (some "internal error")
  else .failure "The operation was aborted due to timeout"

/-- A single subscription at failure count 9 (the failure-threshold
scenario of the spec). -/
def nineFailureState : DispatcherState :=
  { webhooks :=
      [{ id := "w1", organizationId := "org1", url := "https://a.example/hook",
         events := ["case.created"], secret := [9], isActive := true,
         failureCount := 9, lastDeliveryAt := none }],
    deliveries := [] }

/-- A single subscription at failure count 3 (the counter-reset scenario
of the spec: one successful delivery follows). -/
def threeFailureState : DispatcherState :=
  { webhooks :=
      [{ id := "w2", organizationId := "org1", url := "https://a.example/hook",
         events := ["form.submitted"], secret := [3], isActive := true,
         failureCount := 3, lastDeliveryAt := none }],
    deliveries := [] }

/-- No audit row of the state is an `api_key.used` row. -/
def NoUsedAudit (s : GatewayState) : Prop :=
  ∀ e ∈ s.auditLogs, e.action ≠ "api_key.used"

/-! ## Supporting lemmas -/

theorem sha256_length (msg : List Nat) : (sha256 msg).length = 32 := by
  simp [sha256, word32ToBytes]

theorem hexAscii_length (bs : List Nat) : (hexAscii bs).length = 2 * bs.length := by
  induction bs with
  | nil => simp [hexAscii]
  | cons b t ih =>
      simp [hexAscii, byteToHexAscii] at ih ⊢
      omega

theorem hmacSha256_length (key msg : List Nat) : (hmacSha256 key msg).length = 32 := by
  simp [hmacSha256, sha256_length]

theorem generateSignature_length (payload secret : List Nat) :
    (generateSignature payload secret).length = 64 := by
  simp [generateSignature, hexAscii_length, hmacSha256_length]

theorem validateApiKey_auditLogs (s : GatewayState) (key : List Nat) (now : Int) :
    (validateApiKey s key now).2.auditLogs = s.auditLogs := by
  unfold validateApiKey
  split
  · rfl
  · split
    · rfl
    · split
      · rfl
      · split
        · rfl
        · rfl

theorem createApiKey_audit_mem (s : GatewayState) (rnd : List Nat)
    (newId organizationId name : String) (scopes : List String) (createdBy : String)
    (expiresAt : Option Int) (defaultRateLimit now : Int) :
    ∀ e ∈ (createApiKey s rnd newId organizationId name scopes createdBy
              expiresAt defaultRateLimit now).2.auditLogs,
      e.action = "api_key.created" ∨ e ∈ s.auditLogs := by
  intro e he
  simp [createApiKey, createAuditLog] at he
  rcases he with rfl | he
  · exact Or.inl rfl
  · exact Or.inr he

theorem revokeApiKey_audit_mem (s : GatewayState)
    (apiKeyId organizationId revokedBy : String) (now : Int) :
    ∀ e ∈ (revokeApiKey s apiKeyId organizationId revokedBy now).2.auditLogs,
      e.action = "api_key.deleted" ∨ e ∈ s.auditLogs := by
  intro e he
  unfold revokeApiKey at he
  split at he
  · exact Or.inr he
  · simp [createAuditLog, updateApiKeyRows] at he
    rcases he with rfl | he
    · exact Or.inl rfl
    · exact Or.inr he

theorem authenticateApiRequest_auditLogs (s : GatewayState)
    (authHeader : Option (List Nat)) (now : Int) :
    (authenticateApiRequest s authHeader now).2.auditLogs = s.auditLogs := by
  unfold authenticateApiRequest
  match authHeader with
  | none => rfl
  | some h =>
      simp only []
      split
      · rfl
      · split
        · next s1 heq =>
            have h1 : s1 = (validateApiKey s (h.drop 7) now).2 := by rw [heq]
            rw [h1, validateApiKey_auditLogs]
        · next apiKey s1 heq =>
            have h1 : s1 = (validateApiKey s (h.drop 7) now).2 := by rw [heq]
            split <;> rw [h1, validateApiKey_auditLogs]

theorem gatewayStep_noUsed {s s' : GatewayState} (h : GatewayStep s s')
    (hs : NoUsedAudit s) : NoUsedAudit s' := by
  cases h with
  | create rnd newId organizationId name scopes createdBy expiresAt drl now =>
      intro e he
      rcases createApiKey_audit_mem s rnd newId organizationId name scopes createdBy
        expiresAt drl now e he with hact | hmem
      · rw [hact]; decide
      · exact hs e hmem
  | validate key now =>
      intro e he
      rw [validateApiKey_auditLogs] at he
      exact hs e he
  | revoke apiKeyId organizationId revokedBy now =>
      intro e he
      rcases revokeApiKey_audit_mem s apiKeyId organizationId revokedBy now e he with
        hact | hmem
      · rw [hact]; decide
      · exact hs e hmem
  | authRequest authHeader now =>
      intro e he
      rw [authenticateApiRequest_auditLogs] at he
      exact hs e he

theorem gatewayReachable_noUsed {s : GatewayState} (h : GatewayReachable s) :
    NoUsedAudit s := by
  induction h with
  | init => intro e he; simp at he
  | step _ hstep ih => exact gatewayStep_noUsed hstep ih

theorem recentUsage_of_noUsed {s : GatewayState} (hs : NoUsedAudit s)
    (apiKeyId : String) (now : Int) : recentUsage s apiKeyId now = 0 := by
  unfold recentUsage
  rw [List.length_eq_zero, List.filter_eq_nil_iff]
  intro e he
  simp [hs e he]

theorem postAttempt_id (w : Webhook) (b : Bool) (now : Int) :
    (postAttempt w b now).id = w.id := by
  unfold postAttempt
  split
  · rfl
  · split <;> rfl

theorem deliverOne_fst (s : DispatcherState) (p : WebhookPayload) (e : String)
    (w : Webhook) (o : FetchOutcome) (d now : Int) :
    (deliverOne s p e w o d now).1 = deliveryOutcome w o := rfl

theorem deliverOne_deliveries_length (s : DispatcherState) (p : WebhookPayload)
    (e : String) (w : Webhook) (o : FetchOutcome) (d now : Int) :
    (deliverOne s p e w o d now).2.deliveries.length = s.deliveries.length + 1 := by
  simp only [deliverOne, updateWebhookRows]
  split
  · simp
  · split
    · split
      · simp
      · simp
    · simp

theorem find?_map_of_mem (l : List Webhook) (hnd : (l.map Webhook.id).Nodup)
    (g : Webhook → Webhook) (hg : ∀ y, (g y).id = y.id)
    (x : Webhook) (hx : x ∈ l) (tid : String) (hxid : x.id = tid) :
    (l.map g).find? (fun y => y.id == tid) = some (g x) := by
  induction l with
  | nil => cases hx
  | cons a t ih =>
      rw [List.map_cons]
      by_cases ha : a.id = tid
      · have hax : a = x := by
          rcases List.mem_cons.1 hx with rfl | hxt
          · rfl
          · exfalso
            have hmem : a.id ∈ t.map Webhook.id := by
              rw [ha, ← hxid]
              exact List.mem_map_of_mem _ hxt
            rw [List.map_cons] at hnd
            exact (List.nodup_cons.1 hnd).1 hmem
        subst hax
        rw [List.find?_cons_of_pos]
        simp [hg, ha]
      · rw [List.find?_cons_of_neg]
        · apply ih
          · rw [List.map_cons] at hnd
            exact (List.nodup_cons.1 hnd).2
          · rcases List.mem_cons.1 hx with rfl | hxt
            · exact absurd hxid ha
            · exact hxt
        · simp [hg, ha]

theorem deliverOne_rows (s : DispatcherState) (p : WebhookPayload) (e : String)
    (w : Webhook) (o : FetchOutcome) (d now : Int)
    (hnd : (s.webhooks.map Webhook.id).Nodup)
    (x₀ : Webhook) (hx₀ : x₀ ∈ s.webhooks) (hid : x₀.id = w.id) :
    (deliverOne s p e w o d now).2.webhooks =
      s.webhooks.map (fun x =>
        if x.id = w.id then postAttempt x (fetchSuccess o) now else x) := by
  have hinj := List.inj_on_of_nodup_map hnd
  cases hsucc : fetchSuccess o with
  | true =>
      simp only [deliverOne, hsucc, updateWebhookRows, if_true]
      apply List.map_congr_left
      intro x _
      by_cases hxw : x.id = w.id
      · simp [hxw, postAttempt]
      · simp [hxw]
  | false =>
      have hF1id : ∀ y : Webhook,
          ((fun x => if x.id = w.id then
              { x with lastDeliveryAt := some now,
                       failureCount := x.failureCount + 1 }
            else x) y).id = y.id := by
        intro y
        by_cases hyw : y.id = w.id <;> simp [hyw]
      have hfind := find?_map_of_mem s.webhooks hnd _ hF1id x₀ hx₀ w.id hid
      rw [if_pos hid] at hfind
      simp only [deliverOne, hsucc, updateWebhookRows, Bool.false_eq_true, if_false]
      rw [hfind]
      dsimp only
      split
      case isTrue h10 =>
        dsimp only
        rw [List.map_map]
        apply List.map_congr_left
        intro x hx
        by_cases hxw : x.id = w.id
        · have hxx0 : x₀ = x := hinj hx₀ hx (by rw [hxw, hid])
          subst hxx0
          have h10' : 10 ≤ x₀.failureCount + 1 := h10
          simp [Function.comp, hxw, postAttempt, h10']
        · simp [Function.comp, hxw]
      case isFalse h10 =>
        dsimp only
        apply List.map_congr_left
        intro x hx
        by_cases hxw : x.id = w.id
        · have hxx0 : x₀ = x := hinj hx₀ hx (by rw [hxw, hid])
          subst hxx0
          have h10' : ¬ 10 ≤ x₀.failureCount + 1 := h10
          simp [hxw, postAttempt, h10']
        · simp [hxw]

theorem foldl_dispatchStep_fst (payload : WebhookPayload) (event : String)
    (outcomes : String → FetchOutcome) (durations : String → Int) (now : Int) :
    ∀ (ws : List Webhook) (acc : List DispatchOutcome × DispatcherState),
      (ws.foldl (dispatchStep payload event outcomes durations now) acc).1 =
        acc.1 ++ ws.map (fun w => deliveryOutcome w (outcomes w.id)) := by
  intro ws
  induction ws with
  | nil => intro acc; simp
  | cons w rest ih =>
      intro acc
      rw [List.foldl_cons, ih]
      simp [dispatchStep, deliverOne_fst]

theorem foldl_dispatchStep_deliveries (payload : WebhookPayload) (event : String)
    (outcomes : String → FetchOutcome) (durations : String → Int) (now : Int) :
    ∀ (ws : List Webhook) (acc : List DispatchOutcome × DispatcherState),
      (ws.foldl (dispatchStep payload event outcomes durations now)
        acc).2.deliveries.length =
        acc.2.deliveries.length + ws.length := by
  intro ws
  induction ws with
  | nil => intro acc; simp
  | cons w rest ih =>
      intro acc
      rw [List.foldl_cons, ih]
      have hstep : (dispatchStep payload event outcomes durations now acc w).2 =
          (deliverOne acc.2 payload event w (outcomes w.id) (durations w.id) now).2 := rfl
      rw [hstep, deliverOne_deliveries_length]
      simp
      omega

theorem foldl_dispatchStep_rows (payload : WebhookPayload) (event : String)
    (outcomes : String → FetchOutcome) (durations : String → Int) (now : Int) :
    ∀ (ws : List Webhook) (acc : List DispatchOutcome × DispatcherState),
      ((acc.2.webhooks.map Webhook.id).Nodup) →
      (∀ w ∈ ws, w ∈ acc.2.webhooks) →
      ((ws.map Webhook.id).Nodup) →
      (ws.foldl (dispatchStep payload event outcomes durations now) acc).2.webhooks =
        acc.2.webhooks.map (fun x =>
          if x.id ∈ ws.map Webhook.id
          then postAttempt x (fetchSuccess (outcomes x.id)) now else x) := by
  intro ws
  induction ws with
  | nil =>
      intro acc _ _ _
      simp
  | cons w rest ih =>
      intro acc hnd hmem hwnd
      have hwmem : w ∈ acc.2.webhooks := hmem w (List.mem_cons_self w rest)
      have hrows := deliverOne_rows acc.2 payload event w (outcomes w.id)
        (durations w.id) now hnd w hwmem rfl
      have hstep : (dispatchStep payload event outcomes durations now acc w).2 =
          (deliverOne acc.2 payload event w (outcomes w.id) (durations w.id) now).2 := rfl
      have hF1id : ∀ y : Webhook,
          ((fun x => if x.id = w.id
              then postAttempt x (fetchSuccess (outcomes w.id)) now else x) y).id =
            y.id := by
        intro y
        by_cases hyw : y.id = w.id <;> simp [hyw, postAttempt_id]
      have hids : (dispatchStep payload event outcomes durations now
          acc w).2.webhooks.map Webhook.id = acc.2.webhooks.map Webhook.id := by
        rw [hstep, hrows, List.map_map]
        apply List.map_congr_left
        intro x _
        exact hF1id x
      have hwidrest : w.id ∉ rest.map Webhook.id := by
        rw [List.map_cons] at hwnd
        exact (List.nodup_cons.1 hwnd).1
      have hnd' : ((dispatchStep payload event outcomes durations now
          acc w).2.webhooks.map Webhook.id).Nodup := by
        rw [hids]; exact hnd
      have hmem' : ∀ w' ∈ rest,
          w' ∈ (dispatchStep payload event outcomes durations now acc w).2.webhooks := by
        intro w' hw'
        have hw'mem := hmem w' (List.mem_cons_of_mem _ hw')
        have hw'id : ¬ w'.id = w.id := by
          intro he
          exact hwidrest (he ▸ List.mem_map_of_mem _ hw')
        rw [hstep, hrows]
        have hfix : (fun x => if x.id = w.id
            then postAttempt x (fetchSuccess (outcomes w.id)) now else x) w' = w' := by
          simp [hw'id]
        rw [← hfix]
        exact List.mem_map_of_mem _ hw'mem
      have hrestnd : (rest.map Webhook.id).Nodup := by
        rw [List.map_cons] at hwnd
        exact (List.nodup_cons.1 hwnd).2
      rw [List.foldl_cons]
      rw [ih (dispatchStep payload event outcomes durations now acc w) hnd' hmem' hrestnd]
      rw [hstep, hrows, List.map_map]
      apply List.map_congr_left
      intro x hx
      dsimp only [Function.comp]
      by_cases hxw : x.id = w.id
      · rw [if_pos hxw]
        rw [if_neg (by rw [postAttempt_id, hxw]; exact hwidrest)]
        rw [if_pos (show x.id ∈ (w :: rest).map Webhook.id by
              rw [List.map_cons]
              exact List.mem_cons.2 (Or.inl hxw))]
        rw [hxw]
      · rw [if_neg hxw]
        by_cases hrest : x.id ∈ rest.map Webhook.id
        · rw [if_pos hrest,
              if_pos (show x.id ∈ (w :: rest).map Webhook.id by
                rw [List.map_cons]
                exact List.mem_cons.2 (Or.inr hrest))]
        · rw [if_neg hrest,
              if_neg (show x.id ∉ (w :: rest).map Webhook.id by
                rw [List.map_cons]
                intro hc
                rcases List.mem_cons.1 hc with h | h
                · exact hxw h
                · exact hrest h)]

theorem matchingWebhooks_subset (s : DispatcherState) (organizationId event : String) :
    ∀ w ∈ matchingWebhooks s organizationId event, w ∈ s.webhooks :=
  fun _ hw => (List.mem_filter.1 hw).1

theorem matchingWebhooks_ids_nodup (s : DispatcherState) (organizationId event : String)
    (hnd : (s.webhooks.map Webhook.id).Nodup) :
    ((matchingWebhooks s organizationId event).map Webhook.id).Nodup :=
  hnd.sublist (List.Sublist.map _ (List.filter_sublist s.webhooks))

theorem triggerWebhooks_rows (s : DispatcherState) (organizationId event data : String)
    (outs : String → FetchOutcome) (durs : String → Int) (now : Int)
    (hnd : (s.webhooks.map Webhook.id).Nodup) :
    (triggerWebhooks s organizationId event data outs durs now).2.webhooks =
      s.webhooks.map (fun x =>
        if x ∈ matchingWebhooks s organizationId event
        then postAttempt x (fetchSuccess (outs x.id)) now else x) := by
  have hinj := List.inj_on_of_nodup_map hnd
  unfold triggerWebhooks
  by_cases hemp : (matchingWebhooks s organizationId event).isEmpty
  · rw [if_pos hemp]
    have hnil : matchingWebhooks s organizationId event = [] :=
      List.isEmpty_iff.1 hemp
    rw [hnil]
    simp
  · rw [if_neg hemp]
    have hfold := foldl_dispatchStep_rows
      { event := event, timestamp := now, data := data,
        organizationId := organizationId } event outs durs now
      (matchingWebhooks s organizationId event) ([], s) hnd
      (matchingWebhooks_subset s organizationId event)
      (matchingWebhooks_ids_nodup s organizationId event hnd)
    rw [hfold]
    apply List.map_congr_left
    intro x hx
    by_cases hmem : x ∈ matchingWebhooks s organizationId event
    · rw [if_pos (List.mem_map_of_mem _ hmem), if_pos hmem]
    · rw [if_neg ?_, if_neg hmem]
      intro hin
      rcases List.mem_map.1 hin with ⟨y, hy, hyid⟩
      have hyx : y = x := hinj (matchingWebhooks_subset s organizationId event y hy) hx hyid
      exact hmem (hyx ▸ hy)

theorem findWebhook_triggerWebhooks (s : DispatcherState)
    (organizationId event data : String) (outs : String → FetchOutcome)
    (durs : String → Int) (now : Int)
    (hnd : (s.webhooks.map Webhook.id).Nodup)
    (x : Webhook) (hx : x ∈ s.webhooks) :
    findWebhook (triggerWebhooks s organizationId event data outs durs now).2 x.id =
      some (if x ∈ matchingWebhooks s organizationId event
            then postAttempt x (fetchSuccess (outs x.id)) now else x) := by
  unfold findWebhook
  rw [triggerWebhooks_rows s organizationId event data outs durs now hnd]
  apply find?_map_of_mem s.webhooks hnd _ ?_ x hx x.id rfl
  intro y
  by_cases hy : y ∈ matchingWebhooks s organizationId event <;>
    simp [hy, postAttempt_id]

/-! ## Claim theorems -/

/-- Claim C1: the spec asserts that scope matching is exact up to the
wildcard boundary, so that a `forms.*` grant authorizes `forms.read` and
`forms.write` but not `formsx.read`.  The code drops the dot together with
the star (`scope.slice(0, -2)` keeps only `forms`) and then uses a plain
prefix test, so `formsx.read` is in fact authorized — the third conjunct
evaluates `hasScope` at the spec's own counterexample and gets `true`. -/
theorem hasScope_wildcard_ignores_dot_boundary :
    hasScope ["forms.*"] "forms.read" = true ∧
    hasScope ["forms.*"] "forms.write" = true ∧
    hasScope ["forms.*"] "formsx.read" = true := by decide

/-- Claim C6 (counterexample): the claim says `verifySignature` never
raises and treats a signature of the wrong length as a mismatch (`false`).
On a one-byte signature the recomputed hex HMAC has 64 bytes, so
`crypto.timingSafeEqual` raises its length error instead of returning
`false`. -/
theorem verifyWebhookSignature_wrong_length_raises :
    verifyWebhookSignature [] [48] [] =
      Except.error "Input buffers must have the same byte length" ∧
    verifyWebhookSignature [] [48] [] ≠ Except.ok false := by
  have h : verifyWebhookSignature [] [48] [] =
      Except.error "Input buffers must have the same byte length" := by
    simp [verifyWebhookSignature, generateSignature_length]
  exact ⟨h, by rw [h]; simp⟩

/-- Claim C6 (amended): `verifySignature` recomputes the HMAC-SHA256 and
compares with constant-time equality, returning the boolean — but only
when the given signature has the 64-byte length of the recomputed hex
digest; for a signature of any other byte length the comparison raises
(the `Except.error` branch) rather than returning `false`. -/
theorem verifyWebhookSignature_characterization :
    ∀ payload signature secret : List Nat,
      verifyWebhookSignature payload signature secret =
        if signature.length = 64 then
          Except.ok (signature == generateSignature payload secret)
        else Except.error "Input buffers must have the same byte length" := by
  intro p s k
  simp only [verifyWebhookSignature, generateSignature_length]

/-- Claim C2: no gateway operation (`createApiKey`, `validateApiKey`,
`revokeApiKey`, `authenticateApiRequest`) ever writes an `api_key.used`
audit row — the only action `checkRateLimit` counts — so in every
reachable state the counted recent usage is 0, `checkRateLimit` reports
`remaining = limit` and `allowed = (limit > 0)`, and a credential with a
positive ceiling is never blocked. -/
theorem checkRateLimit_never_blocks_on_reachable :
    ∀ s : GatewayState, GatewayReachable s →
      ∀ (apiKeyId : String) (rateLimit now : Int), 0 ≤ rateLimit →
        recentUsage s apiKeyId now = 0 ∧
        (checkRateLimit s apiKeyId rateLimit now).remaining = rateLimit ∧
        (checkRateLimit s apiKeyId rateLimit now).allowed = decide (0 < rateLimit) ∧
        (0 < rateLimit → (checkRateLimit s apiKeyId rateLimit now).allowed = true) := by
  intro s hreach apiKeyId rateLimit now hlim
  have h0 := recentUsage_of_noUsed (gatewayReachable_noUsed hreach) apiKeyId now
  have hrem : (checkRateLimit s apiKeyId rateLimit now).remaining = rateLimit := by
    simp [checkRateLimit, h0, max_eq_right hlim]
  refine ⟨h0, hrem, ?_, ?_⟩
  · simp [checkRateLimit, h0]
  · intro hpos
    simp [checkRateLimit, h0, max_eq_right hlim, hpos]

/-- Claim C2 (witness): the invariant instantiated at a concrete reachable
state — a key is issued and then revoked — with ceiling 5. -/
theorem checkRateLimit_never_blocks_on_reachable_witness :
    recentUsage sampleGatewayState "k1" 7200000 = 0 ∧
    (checkRateLimit sampleGatewayState "k1" 5 7200000).allowed = true := by
  have hreach : GatewayReachable sampleGatewayState := by
    unfold sampleGatewayState
    exact .step (.step .init (.create _ _ _ _ _ _ _ _ _ _)) (.revoke _ _ _ _ _)
  have h := checkRateLimit_never_blocks_on_reachable sampleGatewayState hreach
    "k1" 5 7200000 (by decide)
  exact ⟨h.1, h.2.2.2 (by decide)⟩

/-- Claim C10: `checkRateLimit` counts the `api_key.used` audit rows
attributable to the credential in the trailing 60-minute sliding window;
it allows exactly when the count is below the limit, reports the limit
minus the count floored at 0 as remaining, and the window start plus 60
minutes as the reset instant.  The final conjuncts run the spec's
scenario: with limit 5 and five attributable events in the trailing hour
the check is blocked with remaining 0, and once the window has rolled past
the oldest event (here one millisecond later than one hour after it) the
check is allowed again. -/
theorem checkRateLimit_sliding_window :
    (∀ (s : GatewayState) (apiKeyId : String) (rateLimit now : Int),
      ((checkRateLimit s apiKeyId rateLimit now).allowed = true ↔
        (recentUsage s apiKeyId now : Int) < rateLimit) ∧
      (checkRateLimit s apiKeyId rateLimit now).remaining =
        max 0 (rateLimit - (recentUsage s apiKeyId now : Int)) ∧
      (checkRateLimit s apiKeyId rateLimit now).resetAt = (now - 3600000) + 3600000) ∧
    (checkRateLimit fiveUsesState "k1" 5 3600000).allowed = false ∧
    (checkRateLimit fiveUsesState "k1" 5 3600000).remaining = 0 ∧
    (checkRateLimit fiveUsesState "k1" 5 3600001).allowed = true := by
  refine ⟨?_, by decide, by decide, by decide⟩
  intro s apiKeyId rateLimit now
  refine ⟨?_, rfl, rfl⟩
  simp only [checkRateLimit, gt_iff_lt, decide_eq_true_eq, lt_max_iff]
  omega

/-- Claim C8: `validateApiKey` fails (returns no credential) when no row
matches the key's hash, when the matching row is inactive, and when the
matching row's expiry lies before `now`; it never throws (it is a total
function into `Option`).  On success the returned row is exactly the
stored credential matching the hash — carrying the resolved tenant id
(`organizationId`) and scope set — and the resulting state bumps that
row's usage counter by one and stamps its last-used time. -/
theorem validateApiKey_contract :
    ∀ (s : GatewayState) (key : List Nat) (now : Int),
      (s.apiKeys.find? (fun x => x.key == keyHash key) = none →
        (validateApiKey s key now).1 = none) ∧
      (∀ k, s.apiKeys.find? (fun x => x.key == keyHash key) = some k →
        k.isActive = false → (validateApiKey s key now).1 = none) ∧
      (∀ k t, s.apiKeys.find? (fun x => x.key == keyHash key) = some k →
        k.expiresAt = some t → t < now → (validateApiKey s key now).1 = none) ∧
      (∀ k, (validateApiKey s key now).1 = some k →
        s.apiKeys.find? (fun x => x.key == keyHash key) = some k ∧
        (validateApiKey s key now).2 = updateApiKeyRows s k.id
          (fun x => { x with lastUsedAt := some now, usageCount := x.usageCount + 1 })) := by
  intro s key now
  by_cases hpre : apiKeyStartBytes.isPrefixOf key
  case neg =>
    have hres : validateApiKey s key now = (none, s) := by
      simp [validateApiKey, hpre]
    refine ⟨fun _ => by rw [hres], fun k _ _ => by rw [hres],
            fun k t _ _ _ => by rw [hres], fun k hk => ?_⟩
    rw [hres] at hk
    exact absurd hk (by simp)
  case pos =>
    rcases hfind : s.apiKeys.find? (fun x => x.key == keyHash key) with _ | k0
    · have hres : validateApiKey s key now = (none, s) := by
        simp [validateApiKey, hpre, hfind]
      refine ⟨fun _ => by rw [hres], fun k _ _ => by rw [hres],
              fun k t _ _ _ => by rw [hres], fun k hk => ?_⟩
      rw [hres] at hk
      exact absurd hk (by simp)
    · by_cases hact : k0.isActive
      · cases hexp : (match k0.expiresAt with
                      | some t => decide (t < now)
                      | none => false) with
        | true =>
            have hres : validateApiKey s key now = (none, s) := by
              simp [validateApiKey, hpre, hfind, hact, hexp]
            refine ⟨fun h => by rw [hres], fun k hk hin => by rw [hres],
                    fun k t hk _ _ => by rw [hres], fun k hk => ?_⟩
            rw [hres] at hk
            exact absurd hk (by simp)
        | false =>
            have hres : validateApiKey s key now =
                (some k0, updateApiKeyRows s k0.id
                  (fun x => { x with lastUsedAt := some now,
                                     usageCount := x.usageCount + 1 })) := by
              simp [validateApiKey, hpre, hfind, hact, hexp]
            refine ⟨fun h => by rw [hfind] at h; exact absurd h (by simp),
                    fun k hk hin => ?_, fun k t hk hsome hlt => ?_, fun k hk => ?_⟩
            · rw [hfind] at hk
              cases hk
              exact absurd hin (by simp [hact])
            · rw [hfind] at hk
              cases hk
              rw [hsome] at hexp
              simp at hexp
              omega
            · rw [hres] at hk
              simp at hk
              cases hk
              exact ⟨hfind, by rw [hres]⟩
      · have hres : validateApiKey s key now = (none, s) := by
          simp [validateApiKey, hpre, hfind, hact]
        refine ⟨fun _ => by rw [hres], fun k _ _ => by rw [hres],
                fun k t _ _ _ => by rw [hres], fun k hk => ?_⟩
        rw [hres] at hk
        exact absurd hk (by simp)

/-- Claim C8 (witness): against an empty store, no row matches any hash,
so authentication of an arbitrary secret fails with no credential. -/
theorem validateApiKey_contract_witness :
    (validateApiKey { apiKeys := [], auditLogs := [] } [1, 2, 3] 0).1 = none :=
  (validateApiKey_contract { apiKeys := [], auditLogs := [] } [1, 2, 3] 0).1 rfl

theorem isPrefixOf_append_self (l₁ l₂ : List Nat) :
    l₁.isPrefixOf (l₁ ++ l₂) = true := by
  induction l₁ with
  | nil => simp [List.isPrefixOf]
  | cons a t ih => simp [List.isPrefixOf, ih]

theorem find?_append_of_none {α : Type} (p : α → Bool) {l₁ : List α}
    (l₂ : List α) (h : l₁.find? p = none) :
    (l₁ ++ l₂).find? p = l₂.find? p := by
  induction l₁ with
  | nil => rfl
  | cons a t ih =>
      by_cases hpa : p a
      · rw [List.find?_cons_of_pos _ hpa] at h
        cases h
      · rw [List.find?_cons_of_neg _ hpa] at h
        rw [List.cons_append, List.find?_cons_of_neg _ hpa]
        exact ih h

/-- Claim C9: issuing a credential and immediately authenticating with the
raw secret returned at issuance succeeds, and the credential it resolves
carries the same tenant id and exactly the issued scope set.  The issued
hash is assumed fresh (hash uniqueness is a stated invariant of the data
model; `db.apiKey.create` would reject a duplicate of the unique `key`
column), and the credential is issued without an expiry. -/
theorem createApiKey_validateApiKey_roundtrip :
    ∀ (s : GatewayState) (rnd : List Nat) (newId organizationId name : String)
      (scopes : List String) (createdBy : String) (defaultRateLimit : Int)
      (now now2 : Int),
      name ≠ "" → scopes ≠ [] →
      (∀ k ∈ s.apiKeys, k.key ≠ (generateApiKey rnd).hash) →
      ∃ k : ApiKeyRec,
        (validateApiKey
            (createApiKey s rnd newId organizationId name scopes createdBy none
              defaultRateLimit now).2
            (createApiKey s rnd newId organizationId name scopes createdBy none
              defaultRateLimit now).1.2 now2).1 = some k ∧
        k.organizationId = organizationId ∧ k.scopes = scopes := by
  intro s rnd newId organizationId name scopes createdBy defaultRateLimit now now2
    hname hscopes hfresh
  refine ⟨{ id := newId, organizationId := organizationId, name := name,
            key := (generateApiKey rnd).hash,
            keyPrefix := (generateApiKey rnd).keyPrefix, scopes := scopes,
            isActive := true, expiresAt := none, lastUsedAt := none,
            usageCount := 0, rateLimit := defaultRateLimit,
            createdBy := createdBy }, ?_, rfl, rfl⟩
  have hraw : (createApiKey s rnd newId organizationId name scopes createdBy none
      defaultRateLimit now).1.2 = apiKeyStartBytes ++ base64UrlEncode rnd := rfl
  have hkeys : (createApiKey s rnd newId organizationId name scopes createdBy none
      defaultRateLimit now).2.apiKeys =
      s.apiKeys ++
        [{ id := newId, organizationId := organizationId, name := name,
           key := (generateApiKey rnd).hash,
           keyPrefix := (generateApiKey rnd).keyPrefix, scopes := scopes,
           isActive := true, expiresAt := none, lastUsedAt := none,
           usageCount := 0, rateLimit := defaultRateLimit,
           createdBy := createdBy }] := rfl
  have hhash : keyHash (apiKeyStartBytes ++ base64UrlEncode rnd) =
      (generateApiKey rnd).hash := rfl
  have hfind : ((createApiKey s rnd newId organizationId name scopes createdBy none
      defaultRateLimit now).2.apiKeys.find?
        (fun x => x.key == keyHash (apiKeyStartBytes ++ base64UrlEncode rnd))) =
      some { id := newId, organizationId := organizationId, name := name,
             key := (generateApiKey rnd).hash,
             keyPrefix := (generateApiKey rnd).keyPrefix, scopes := scopes,
             isActive := true, expiresAt := none, lastUsedAt := none,
             usageCount := 0, rateLimit := defaultRateLimit,
             createdBy := createdBy } := by
    rw [hkeys, find?_append_of_none]
    · simp [hhash]
    · rw [List.find?_eq_none]
      intro x hx
      simp [hhash, hfresh x hx]
  simp [validateApiKey, hraw, isPrefixOf_append_self, hfind]

theorem mem_zip_map {α β : Type} (f : α → β) :
    ∀ (ws : List α) (pr : α × β), pr ∈ ws.zip (ws.map f) → pr.2 = f pr.1 := by
  intro ws
  induction ws with
  | nil => intro pr h; simp at h
  | cons a t ih =>
      intro pr h
      rw [List.map_cons, List.zip_cons_cons] at h
      rcases List.mem_cons.1 h with rfl | h2
      · rfl
      · exact ih pr h2

theorem fetchSuccess_iff_2xx (o : FetchOutcome) :
    fetchSuccess o = true ↔
      ∃ st body, o = FetchOutcome.response st body ∧ 200 ≤ st ∧ st < 300 := by
  cases o with
  | response st body => simp [fetchSuccess, statusOk, and_assoc]
  | failure msg => simp [fetchSuccess]

/-- Claim C5 (counterexample): the claim says dispatch with zero matching
active subscriptions returns an empty outcome list; the code's early
`return;` produces no list at all (`none`), not `some []`. -/
theorem triggerWebhooks_no_match_cx :
    triggerWebhooks { webhooks := [], deliveries := [] } "org1" "case.created"
        "payload" (fun _ => FetchOutcome.failure "err") (fun _ => 0) 0 =
      (none, { webhooks := [], deliveries := [] }) ∧
    (triggerWebhooks { webhooks := [], deliveries := [] } "org1" "case.created"
        "payload" (fun _ => FetchOutcome.failure "err") (fun _ => 0) 0).1 ≠
      some [] := by
  constructor
  · rfl
  · intro h
    simp [triggerWebhooks, matchingWebhooks] at h

/-- Claim C5 (amended): with zero matching active subscriptions, dispatch
returns without a value (`undefined`, modelled `none`) rather than an
empty outcome list, and leaves the state untouched — in particular zero
DeliveryRecords are created. -/
theorem triggerWebhooks_no_match :
    ∀ (s : DispatcherState) (organizationId event data : String)
      (outs : String → FetchOutcome) (durs : String → Int) (now : Int),
      matchingWebhooks s organizationId event = [] →
      triggerWebhooks s organizationId event data outs durs now = (none, s) := by
  intro s organizationId event data outs durs now h
  simp [triggerWebhooks, h]

/-- Claim C5 (witness): the no-match branch at a concrete empty store. -/
theorem triggerWebhooks_no_match_witness :
    triggerWebhooks { webhooks := [], deliveries := [] } "org2" "form.created"
        "payload" (fun _ => FetchOutcome.failure "err") (fun _ => 0) 3 =
      (none, { webhooks := [], deliveries := [] }) :=
  triggerWebhooks_no_match { webhooks := [], deliveries := [] } "org2"
    "form.created" "payload" (fun _ => FetchOutcome.failure "err") (fun _ => 0) 3 rfl

/-- Claim C7: a dispatch with `n ≥ 1` matching active subscriptions
returns exactly `n` per-subscription outcomes — in order, carrying each
subscription's id, with the success flag true exactly when an HTTP
response with a 2xx status was received — and appends exactly one
DeliveryRecord per attempt regardless of outcome.  Failures surface as
outcomes, never as exceptions: the result is always the full list. -/
theorem triggerWebhooks_outcomes_and_records :
    ∀ (s : DispatcherState) (organizationId event data : String)
      (outs : String → FetchOutcome) (durs : String → Int) (now : Int) (n : Nat),
      (matchingWebhooks s organizationId event).length = n → 1 ≤ n →
      ∃ l : List DispatchOutcome,
        (triggerWebhooks s organizationId event data outs durs now).1 = some l ∧
        l.length = n ∧
        (∀ pr ∈ (matchingWebhooks s organizationId event).zip l,
          pr.2.webhookId = pr.1.id ∧
          (pr.2.success = true ↔
            ∃ st body, outs pr.1.id = FetchOutcome.response st body ∧
              200 ≤ st ∧ st < 300)) ∧
        (triggerWebhooks s organizationId event data outs durs
            now).2.deliveries.length = s.deliveries.length + n := by
  intro s organizationId event data outs durs now n hn h1
  have hne : ¬ (matchingWebhooks s organizationId event).isEmpty := by
    intro he
    rw [List.isEmpty_iff.1 he] at hn
    simp at hn
    omega
  refine ⟨(matchingWebhooks s organizationId event).map
      (fun w => deliveryOutcome w (outs w.id)), ?_, ?_, ?_, ?_⟩
  · unfold triggerWebhooks
    rw [if_neg hne]
    dsimp only
    rw [foldl_dispatchStep_fst]
    simp
  · simp [hn]
  · intro pr hpr
    have h2 := mem_zip_map _ _ pr hpr
    refine ⟨by rw [h2]; rfl, ?_⟩
    rw [h2]
    show fetchSuccess (outs pr.1.id) = true ↔ _
    exact fetchSuccess_iff_2xx (outs pr.1.id)
  · unfold triggerWebhooks
    rw [if_neg hne]
    dsimp only
    rw [foldl_dispatchStep_deliveries]
    simp [hn]

/-- Claim C7 (witness): the spec's partial-failure scenario — three
subscriptions to `case.created` where A answers 200, B answers 500 and C
times out — yields three outcomes and three new DeliveryRecords. -/
theorem triggerWebhooks_outcomes_and_records_witness :
    ∃ l : List DispatchOutcome,
      (triggerWebhooks threeSubscriberState "org1" "case.created" "payload"
          threeSubscriberFetch (fun _ => 10) 77).1 = some l ∧
      l.length = 3 ∧
      (∀ pr ∈ (matchingWebhooks threeSubscriberState "org1" "case.created").zip l,
        pr.2.webhookId = pr.1.id ∧
        (pr.2.success = true ↔
          ∃ st body, threeSubscriberFetch pr.1.id = FetchOutcome.response st body ∧
            200 ≤ st ∧ st < 300)) ∧
      (triggerWebhooks threeSubscriberState "org1" "case.created" "payload"
          threeSubscriberFetch (fun _ => 10) 77).2.deliveries.length =
        threeSubscriberState.deliveries.length + 3 :=
  triggerWebhooks_outcomes_and_records threeSubscriberState "org1" "case.created"
    "payload" threeSubscriberFetch (fun _ => 10) 77 3 (by decide) (by decide)

/-- Claim C3: per failed delivery attempt, when the post-increment failure
counter reaches 10 the subscription is disabled in the same per-attempt
update (first conjunct); a subscription row goes from active to inactive
only when its resulting counter is at least 10 (second conjunct); the
dispatcher never touches an inactive subscription, in particular never
reactivates one (third conjunct); and a subscription at failure count 9
receiving one more failed delivery ends at count 10 with active off
(fourth conjunct). -/
theorem triggerWebhooks_failure_threshold :
    ∀ (s : DispatcherState) (organizationId event data : String)
      (outs : String → FetchOutcome) (durs : String → Int) (now : Int),
      (s.webhooks.map Webhook.id).Nodup →
      ((∀ x ∈ matchingWebhooks s organizationId event,
          fetchSuccess (outs x.id) = false → 10 ≤ x.failureCount + 1 →
          findWebhook (triggerWebhooks s organizationId event data outs durs
              now).2 x.id =
            some { x with lastDeliveryAt := some now,
                          failureCount := x.failureCount + 1,
                          isActive := false }) ∧
       (∀ x ∈ s.webhooks, x.isActive = true →
          ∀ x', findWebhook (triggerWebhooks s organizationId event data outs
              durs now).2 x.id = some x' →
            x'.isActive = false → 10 ≤ x'.failureCount) ∧
       (∀ x ∈ s.webhooks, x.isActive = false →
          findWebhook (triggerWebhooks s organizationId event data outs durs
              now).2 x.id = some x) ∧
       (∀ x ∈ matchingWebhooks s organizationId event,
          fetchSuccess (outs x.id) = false → x.failureCount = 9 →
          findWebhook (triggerWebhooks s organizationId event data outs durs
              now).2 x.id =
            some { x with lastDeliveryAt := some now, failureCount := 10,
                          isActive := false })) := by
  intro s organizationId event data outs durs now hnd
  refine ⟨?_, ?_, ?_, ?_⟩
  · intro x hx hfail h10
    rw [findWebhook_triggerWebhooks s organizationId event data outs durs now hnd
      x (matchingWebhooks_subset s organizationId event x hx), if_pos hx]
    simp [postAttempt, hfail, h10]
  · intro x hxs hact x' hfound hx'inact
    rw [findWebhook_triggerWebhooks s organizationId event data outs durs now hnd
      x hxs] at hfound
    have hx' : x' = (if x ∈ matchingWebhooks s organizationId event
        then postAttempt x (fetchSuccess (outs x.id)) now else x) := by
      exact (Option.some.injEq _ _ ▸ hfound.symm)
    by_cases hmem : x ∈ matchingWebhooks s organizationId event
    · rw [if_pos hmem] at hx'
      cases hsucc : fetchSuccess (outs x.id) with
      | true =>
          rw [hsucc] at hx'
          subst hx'
          simp [postAttempt, hact] at hx'inact
      | false =>
          rw [hsucc] at hx'
          by_cases h10 : 10 ≤ x.failureCount + 1
          · subst hx'
            simp [postAttempt, h10]
          · subst hx'
            simp [postAttempt, h10, hact] at hx'inact
    · rw [if_neg hmem] at hx'
      subst hx'
      exact absurd hact (by rw [hx'inact]; simp)
  · intro x hxs hinact
    rw [findWebhook_triggerWebhooks s organizationId event data outs durs now hnd
      x hxs]
    rw [if_neg ?_]
    intro hmem
    have := (List.mem_filter.1 hmem).2
    simp [hinact] at this
  · intro x hx hfail h9
    rw [findWebhook_triggerWebhooks s organizationId event data outs durs now hnd
      x (matchingWebhooks_subset s organizationId event x hx), if_pos hx]
    simp [postAttempt, hfail, h9]

/-- Claim C3 (witness): the threshold scenario at a concrete store — one
active subscription at failure count 9 whose delivery times out ends
disabled at count 10. -/
theorem triggerWebhooks_failure_threshold_witness :
    findWebhook (triggerWebhooks nineFailureState "org1" "case.created" "payload"
        (fun _ => FetchOutcome.failure "timeout") (fun _ => 30000) 99).2 "w1" =
      some { id := "w1", organizationId := "org1",
             url := "https://a.example/hook", events := ["case.created"],
             secret := [9], isActive := false, failureCount := 10,
             lastDeliveryAt := some 99 } := by
  have h := (triggerWebhooks_failure_threshold nineFailureState "org1"
    "case.created" "payload" (fun _ => FetchOutcome.failure "timeout")
    (fun _ => 30000) 99 (by decide)).2.2.2
    { id := "w1", organizationId := "org1", url := "https://a.example/hook",
      events := ["case.created"], secret := [9], isActive := true,
      failureCount := 9, lastDeliveryAt := none } (by decide) rfl rfl
  exact h

/-- Claim C4: every delivery attempt stamps the subscription's
last-delivery time, resets the failure counter to 0 on success and
increments it by exactly 1 on failure, and a successful attempt leaves the
active flag unchanged (first conjunct); in particular a subscription at
failure count 3 receiving a successful delivery ends at count 0 with every
other field unchanged (second conjunct). -/
theorem triggerWebhooks_counter_update :
    ∀ (s : DispatcherState) (organizationId event data : String)
      (outs : String → FetchOutcome) (durs : String → Int) (now : Int),
      (s.webhooks.map Webhook.id).Nodup →
      ((∀ x ∈ matchingWebhooks s organizationId event,
          ∃ x', findWebhook (triggerWebhooks s organizationId event data outs
              durs now).2 x.id = some x' ∧
            x'.lastDeliveryAt = some now ∧
            x'.failureCount =
              (if fetchSuccess (outs x.id) = true then 0 else x.failureCount + 1) ∧
            (fetchSuccess (outs x.id) = true → x'.isActive = x.isActive)) ∧
       (∀ x ∈ matchingWebhooks s organizationId event,
          fetchSuccess (outs x.id) = true → x.failureCount = 3 →
          findWebhook (triggerWebhooks s organizationId event data outs durs
              now).2 x.id =
            some { x with lastDeliveryAt := some now, failureCount := 0 })) := by
  intro s organizationId event data outs durs now hnd
  constructor
  · intro x hx
    refine ⟨postAttempt x (fetchSuccess (outs x.id)) now, ?_, ?_, ?_, ?_⟩
    · rw [findWebhook_triggerWebhooks s organizationId event data outs durs now
        hnd x (matchingWebhooks_subset s organizationId event x hx), if_pos hx]
    · unfold postAttempt
      split
      · rfl
      · split <;> rfl
    · cases hsucc : fetchSuccess (outs x.id) with
      | true => simp [postAttempt, hsucc]
      | false =>
          simp only [postAttempt, hsucc, Bool.false_eq_true, if_false]
          split <;> simp
    · intro hsucc
      simp [postAttempt, hsucc]
  · intro x hx hsucc _
    rw [findWebhook_triggerWebhooks s organizationId event data outs durs now
      hnd x (matchingWebhooks_subset s organizationId event x hx), if_pos hx]
    simp [postAttempt, hsucc]

/-- Claim C4 (witness): a concrete subscription at failure count 3 whose
delivery answers 200 ends at count 0, with its active flag and every other
field unchanged. -/
theorem triggerWebhooks_counter_update_witness :
    findWebhook (triggerWebhooks threeFailureState "org1" "form.submitted" "payload"
        (fun _ => FetchOutcome.response 200 (some "ok")) (fun _ => 5) 42).2
      "w2" =
      some { id := "w2", organizationId := "org1",
             url := "https://a.example/hook", events := ["form.submitted"],
             secret := [3], isActive := true, failureCount := 0,
             lastDeliveryAt := some 42 } := by
  have h := (triggerWebhooks_counter_update threeFailureState "org1"
    "form.submitted" "payload" (fun _ => FetchOutcome.response 200 (some "ok"))
    (fun _ => 5) 42 (by decide)).2
    { id := "w2", organizationId := "org1", url := "https://a.example/hook",
      events := ["form.submitted"], secret := [3], isActive := true,
      failureCount := 3, lastDeliveryAt := none } (by decide) rfl rfl
  exact h

/-- Claim C9 (witness): the round trip at a concrete issuance against an
empty store. -/
theorem createApiKey_validateApiKey_roundtrip_witness :
    ∃ k : ApiKeyRec,
      (validateApiKey
          (createApiKey { apiKeys := [], auditLogs := [] } [] "k1" "org1"
            "Main key" ["cases.read"] "u1" none 1000 0).2
          (createApiKey { apiKeys := [], auditLogs := [] } [] "k1" "org1"
            "Main key" ["cases.read"] "u1" none 1000 0).1.2 50).1 = some k ∧
      k.organizationId = "org1" ∧ k.scopes = ["cases.read"] :=
  createApiKey_validateApiKey_roundtrip { apiKeys := [], auditLogs := [] } []
    "k1" "org1" "Main key" ["cases.read"] "u1" 1000 0 50 (by decide) (by decide)
    (by intro k hk; simp at hk)

end IPPlatform
